import Mathlib

/-!
Shallow embedding of the inventory-planning dashboard in `src/dashboard.py`.

The dashboard loads three tables (`waterfall`, `daily`, `variance`), offers
sidebar selectors over distinct values, and renders three tabs:
tab 1 rebuilds a base-plus-deltas waterfall breakdown from snapshot rows,
tab 2 plots a daily series and reports a cumulative-shortage metric,
tab 3 shows the variance table and a scatter chart when the optional
variance data is present.  SQL queries over the DuckDB views become pure
list operations here (filter, map, dedup, sort); numeric columns are
embedded as integers; timestamps become a year-month-day record ordered by
a chronological key.  Streamlit control flow (warnings, `st.stop`, tab
rendering) becomes total functions into explicit result types.
-/

namespace Dashboard

/-- A calendar date, as carried by the pandas timestamps in the source. -/
structure Date where
  year : Nat
  month : Nat
  day : Nat
deriving DecidableEq

/-- Chronological sort key: the order used by `ORDER BY Date`,
`ORDER BY "Snapshot Date"` and `ORDER BY 1` in the DuckDB queries. -/
def Date.key (d : Date) : Nat :=
  d.year * 10000 + d.month * 100 + d.day

/-- Chronological order on dates. -/
def Date.le (a b : Date) : Prop := a.key ≤ b.key

instance : DecidableRel Date.le :=
  fun a b => inferInstanceAs (Decidable (a.key ≤ b.key))

instance : IsTotal Date Date.le :=
  ⟨fun a b => Nat.le_total a.key b.key⟩

instance : IsTrans Date Date.le :=
  ⟨fun _ _ _ h1 h2 => Nat.le_trans h1 h2⟩

/-- Two-digit zero padding, as produced by `strftime` with `%m` / `%d`. -/
def pad2 (n : Nat) : String :=
  (if n < 10 then "0" else "") ++ Nat.repr n

/-- The label format `ts.strftime(%m-%d)` used at lines 157-158. -/
def fmtMD (d : Date) : String :=
  pad2 d.month ++ "-" ++ pad2 d.day

/-- One row of the `waterfall` view (`inventory_waterfall_deltas.parquet`).
Column names in the source: `Inv Org`, `Item Code`, `Date`, `Snapshot Date`,
`Previous Snapshot Date`, `Tot.Inventory_daily`, `Tot.Inventory_previous`,
`Delta_Inventory`. -/
structure WaterfallRow where
  invOrg : String
  itemCode : String
  date : Date
  snapshotDate : Date
  previousSnapshotDate : Date
  totInventoryDaily : Int
  totInventoryPrevious : Int
  deltaInventory : Int
deriving DecidableEq

/-- The five columns selected by the tab-1 query (lines 135-143). -/
structure SnapshotRecord where
  snapshotDate : Date
  previousSnapshotDate : Date
  totInventoryDaily : Int
  totInventoryPrevious : Int
  deltaInventory : Int
deriving DecidableEq

/-- Projection of a waterfall row onto the tab-1 query columns. -/
def WaterfallRow.toSnapshot (r : WaterfallRow) : SnapshotRecord :=
  { snapshotDate := r.snapshotDate
    previousSnapshotDate := r.previousSnapshotDate
    totInventoryDaily := r.totInventoryDaily
    totInventoryPrevious := r.totInventoryPrevious
    deltaInventory := r.deltaInventory }

/-- Order on snapshot records by `Snapshot Date` (the tab-1 `ORDER BY`). -/
def SnapshotRecord.bySnap (a b : SnapshotRecord) : Prop :=
  Date.le a.snapshotDate b.snapshotDate

instance : DecidableRel SnapshotRecord.bySnap :=
  fun a b => inferInstanceAs (Decidable (Date.le a.snapshotDate b.snapshotDate))

instance : IsTotal SnapshotRecord SnapshotRecord.bySnap :=
  ⟨fun a b => Nat.le_total a.snapshotDate.key b.snapshotDate.key⟩

instance : IsTrans SnapshotRecord SnapshotRecord.bySnap :=
  ⟨fun _ _ _ h1 h2 => Nat.le_trans h1 h2⟩

/-- One row of the `daily` view (`inventory_demand_daily.parquet`).
Columns used: `Inv Org`, `Item Code`, `Snapshot Date`, `Date`,
`Tot.Inventory_daily`, `Indep.Req_daily`, `Net_Inventory_vs_Demand`. -/
structure DailyRow where
  invOrg : String
  itemCode : String
  snapshotDate : Date
  date : Date
  totInventoryDaily : Int
  indepReqDaily : Int
  netInventoryVsDemand : Int
deriving DecidableEq

/-- Order on daily rows by `Date` (the tab-2 `ORDER BY Date`). -/
def DailyRow.byDate (a b : DailyRow) : Prop :=
  Date.le a.date b.date

instance : DecidableRel DailyRow.byDate :=
  fun a b => inferInstanceAs (Decidable (Date.le a.date b.date))

instance : IsTotal DailyRow DailyRow.byDate :=
  ⟨fun a b => Nat.le_total a.date.key b.date.key⟩

instance : IsTrans DailyRow DailyRow.byDate :=
  ⟨fun _ _ _ h1 h2 => Nat.le_trans h1 h2⟩

/-- One row of the `variance` view (`demand_forecast_variance.parquet`).
Columns used: `Inv Org`, `Item Code`, `Date`, `cv_demand_forecast`,
`mean_demand_forecast`. -/
structure VarianceRow where
  invOrg : String
  itemCode : String
  date : Date
  cvDemandForecast : Int
  meanDemandForecast : Int
deriving DecidableEq

/-- Order on variance rows by `Date` (the tab-3 `ORDER BY Date`). -/
def VarianceRow.byDate (a b : VarianceRow) : Prop :=
  Date.le a.date b.date

instance : DecidableRel VarianceRow.byDate :=
  fun a b => inferInstanceAs (Decidable (Date.le a.date b.date))

instance : IsTotal VarianceRow VarianceRow.byDate :=
  ⟨fun a b => Nat.le_total a.date.key b.date.key⟩

instance : IsTrans VarianceRow VarianceRow.byDate :=
  ⟨fun _ _ _ h1 h2 => Nat.le_trans h1 h2⟩

/-!  Sidebar and per-tab queries (lines 93-101, 119-126, 182-187, 220-225). -/

/-- Line 93: `SELECT DISTINCT "Inv Org" FROM waterfall ORDER BY 1`. -/
def all_orgs (waterfall : List WaterfallRow) : List String :=
  ((waterfall.map WaterfallRow.invOrg).dedup).insertionSort (· ≤ ·)

/-- Lines 100-101: distinct item codes for the selected org, then the
Python `sorted` call. -/
def avail_items (waterfall : List WaterfallRow) (org : String) : List String :=
  (((waterfall.filter fun r => r.invOrg == org).map
    WaterfallRow.itemCode).dedup).insertionSort (· ≤ ·)

/-- Lines 119-124: `SELECT DISTINCT Date ... WHERE "Item Code" = ? AND
"Inv Org" = ? ORDER BY Date` on the waterfall view. -/
def avail_dates (waterfall : List WaterfallRow) (item org : String) : List Date :=
  (((waterfall.filter fun r => r.itemCode == item && r.invOrg == org).map
    WaterfallRow.date).dedup).insertionSort Date.le

/-- Lines 135-143: the tab-1 query, filtering the waterfall view by item,
org and target date, ordering by `Snapshot Date`, and projecting onto the
five snapshot columns. -/
def wfQuery (waterfall : List WaterfallRow) (item org : String) (target : Date) :
    List SnapshotRecord :=
  ((waterfall.filter fun r =>
      r.itemCode == item && r.invOrg == org && r.date == target).map
    WaterfallRow.toSnapshot).insertionSort SnapshotRecord.bySnap

/-- Lines 182-187: `SELECT DISTINCT "Snapshot Date" FROM daily WHERE
"Item Code" = ? AND "Inv Org" = ? ORDER BY 1`. -/
def all_snaps (daily : List DailyRow) (item org : String) : List Date :=
  (((daily.filter fun r => r.itemCode == item && r.invOrg == org).map
    DailyRow.snapshotDate).dedup).insertionSort Date.le

/-- Lines 196-203: the tab-2 time-series query for one snapshot,
ordered by `Date`. -/
def tsQuery (daily : List DailyRow) (item org : String) (snap : Date) :
    List DailyRow :=
  (daily.filter fun r =>
    r.itemCode == item && r.invOrg == org && r.snapshotDate == snap).insertionSort
    DailyRow.byDate

/-- Lines 220-225: the tab-3 variance query, ordered by `Date`. -/
def varQuery (variance : List VarianceRow) (item org : String) : List VarianceRow :=
  (variance.filter fun r => r.itemCode == item && r.invOrg == org).insertionSort
    VarianceRow.byDate

/-!  Waterfall reconstruction (lines 145-161). -/

/-- The chart-ready breakdown assembled at lines 152-161: the code builds
the parallel arrays
`x_vals = [Base label] ++ snapshot labels ++ [Final]`,
`y_vals = [base_inv] ++ deltas ++ [None]` and
`measure = [absolute] ++ relative* ++ [total]`;
this structure records the same data position by position. -/
structure WaterfallBreakdown where
  baselineLabel : String
  baselineValue : Int
  steps : List (String × Int)
  finalMarkerLabel : String
  finalMarkerValue : Option Int
deriving DecidableEq

/-- The step contributed by one snapshot row: its `%m-%d` label and its
`Delta_Inventory` value (lines 158 and 160). -/
def stepOf (r : SnapshotRecord) : String × Int :=
  (fmtMD r.snapshotDate, r.deltaInventory)

/-- The x-axis labels of the chart, exactly line 157-158. -/
def WaterfallBreakdown.xVals (w : WaterfallBreakdown) : List String :=
  w.baselineLabel :: w.steps.map Prod.fst ++ [w.finalMarkerLabel]

/-- The y values of the chart, exactly line 160 (`None` for the total bar). -/
def WaterfallBreakdown.yVals (w : WaterfallBreakdown) : List (Option Int) :=
  some w.baselineValue :: w.steps.map (fun s => some s.2) ++ [w.finalMarkerValue]

/-- Lines 145-161: the waterfall reconstruction.  The `wf_df.empty` guard at
lines 145-146 (warning, no chart) is the `none` branch; otherwise the
breakdown is built from the first row (`base_inv`, `base_date`) and the
in-order deltas, ending with the `Final` total marker that carries no
numeric value. -/
def reconstruct (records : List SnapshotRecord) : Option WaterfallBreakdown :=
  match records with
  | [] => none
  | first :: _ =>
    some
      { baselineLabel := "Base (" ++ fmtMD first.previousSnapshotDate ++ ")"
        baselineValue := first.totInventoryPrevious
        steps := records.map stepOf
        finalMarkerLabel := "Final"
        finalMarkerValue := none }

/-- Lines 212-213: the tab-2 metric, the sum of the strictly negative
`Net_Inventory_vs_Demand` values of the selected series. -/
def total_short (ts : List DailyRow) : Int :=
  ((ts.filter fun r => decide (r.netInventoryVsDemand < 0)).map
    DailyRow.netInventoryVsDemand).sum

/-!  Tab rendering and startup control flow. -/

/-- Outcome of tab 1.  `emptyDates` is the line-129 warning
(`No waterfall data selection.`), `emptyRows` the line-146 warning
(`No data found.`), and `chart` the rendered waterfall plus data table. -/
inductive Tab1Output where
  | emptyDates : Tab1Output
  | emptyRows : Tab1Output
  | chart : WaterfallBreakdown → List SnapshotRecord → Tab1Output
deriving DecidableEq

/-- Tab 1 (lines 115-175): list the available target dates; with none,
warn; otherwise take the default selection (`index=0`), run the waterfall
query and reconstruct the breakdown. -/
def tab1 (waterfall : List WaterfallRow) (item org : String) : Tab1Output :=
  match avail_dates waterfall item org with
  | [] => .emptyDates
  | d :: _ =>
    let rows := wfQuery waterfall item org d
    match reconstruct rows with
    | none => .emptyRows
    | some w => .chart w rows

/-- Outcome of tab 2.  `noDaily` is the line-192 inline message
(`No daily data.`); `chartMetric` carries the plotted series and the
cumulative-shortage metric. -/
inductive Tab2Output where
  | noDaily : Tab2Output
  | chartMetric : List DailyRow → Int → Tab2Output
deriving DecidableEq

/-- Tab 2 (lines 178-213): list the snapshots; with none, show the inline
message; otherwise take the default selection (`index=len-1`, the last
snapshot), query the series and compute the shortage metric. -/
def tab2 (daily : List DailyRow) (item org : String) : Tab2Output :=
  match all_snaps daily item org with
  | [] => .noDaily
  | s :: rest =>
    let sel := (s :: rest).getLast (List.cons_ne_nil s rest)
    let ts := tsQuery daily item org sel
    .chartMetric ts (total_short ts)

/-- Outcome of tab 3.  `noVariance` is the line-236 warning
(`Variance data not uploaded.`); `table` renders only the dataframe (the
line-229 guard skips the chart when the query is empty); `tableWithChart`
renders the dataframe and the scatter chart. -/
inductive Tab3Output where
  | noVariance : Tab3Output
  | table : List VarianceRow → Tab3Output
  | tableWithChart : List VarianceRow → Tab3Output
deriving DecidableEq

/-- Says whether a tab-3 outcome shows an inline warning (`st.warning`):
only the missing-dataset branch does. -/
def Tab3Output.isWarning : Tab3Output → Bool
  | .noVariance => true
  | _ => false

/-- Tab 3 (lines 216-236): with variance data registered, show the filtered
dataframe and, when it is non-empty, the scatter chart; otherwise warn. -/
def tab3 (has_var : Bool) (variance : List VarianceRow) (item org : String) :
    Tab3Output :=
  if has_var then
    let rows := varQuery variance item org
    if rows.isEmpty then .table rows else .tableWithChart rows
  else .noVariance

/-- Lines 40-70: a table registers successfully when an upload was supplied
or the default local file exists (I/O failures inside the `try` block are
outside this embedding). -/
def register_table (localExists uploaded : Bool) : Bool :=
  if uploaded then true
  else if localExists then true
  else false

/-- Overall render outcome.  `missingData` is the lines 77-80 halt
(warning, info, `st.stop`, so no tab renders); `noItems` is the lines
103-105 halt; `rendered` carries the three tab outcomes. -/
inductive AppResult where
  | missingData : AppResult
  | noItems : AppResult
  | rendered : Tab1Output → Tab2Output → Tab3Output → AppResult
deriving DecidableEq

/-- The whole script, lines 73-236: register the three tables, halt unless
both required ones are present, halt when the selected org has no items,
and otherwise render the three tabs. -/
def app (wfLocal wfUp dailyLocal dailyUp varLocal varUp : Bool)
    (waterfall : List WaterfallRow) (daily : List DailyRow)
    (variance : List VarianceRow) (org item : String) : AppResult :=
  let has_wf := register_table wfLocal wfUp
  let has_daily := register_table dailyLocal dailyUp
  let has_var := register_table varLocal varUp
  if has_wf && has_daily then
    if (avail_items waterfall org).isEmpty then .noItems
    else
      .rendered (tab1 waterfall item org) (tab2 daily item org)
        (tab3 has_var variance item org)
  else .missingData

/-!  Concrete scenario data used by the spec's scenarios and by witnesses. -/

/-- The two snapshot records of the spec scenario: snapshot 2024-01-08
revising from 100 by -20, then snapshot 2024-01-15 revising from 80 by +5. -/
def twoRecScenario : List SnapshotRecord :=
  [{ snapshotDate := ⟨2024, 1, 8⟩
     previousSnapshotDate := ⟨2024, 1, 1⟩
     totInventoryDaily := 80
     totInventoryPrevious := 100
     deltaInventory := -20 },
   { snapshotDate := ⟨2024, 1, 15⟩
     previousSnapshotDate := ⟨2024, 1, 8⟩
     totInventoryDaily := 85
     totInventoryPrevious := 80
     deltaInventory := 5 }]

/-- The same two records in the reverse order. -/
def twoRecScenarioRev : List SnapshotRecord := twoRecScenario.reverse

/-- The breakdown the reconstruction yields on `twoRecScenarioRev`. -/
def revBreakdown : WaterfallBreakdown :=
  { baselineLabel := "Base (01-08)"
    baselineValue := 80
    steps := [("01-15", 5), ("01-08", -20)]
    finalMarkerLabel := "Final"
    finalMarkerValue := none }

/-- The cumulative-shortfall scenario series: net positions -10, 5, -3
on three consecutive days of one snapshot. -/
def shortScenario : List DailyRow :=
  [{ invOrg := "ORG1", itemCode := "ITEM1", snapshotDate := ⟨2024, 1, 1⟩
     date := ⟨2024, 1, 2⟩, totInventoryDaily := 0, indepReqDaily := 10
     netInventoryVsDemand := -10 },
   { invOrg := "ORG1", itemCode := "ITEM1", snapshotDate := ⟨2024, 1, 1⟩
     date := ⟨2024, 1, 3⟩, totInventoryDaily := 15, indepReqDaily := 10
     netInventoryVsDemand := 5 },
   { invOrg := "ORG1", itemCode := "ITEM1", snapshotDate := ⟨2024, 1, 1⟩
     date := ⟨2024, 1, 4⟩, totInventoryDaily := 7, indepReqDaily := 10
     netInventoryVsDemand := -3 }]

/-- A one-row series with no shortage at all. -/
def posScenario : List DailyRow :=
  [{ invOrg := "ORG1", itemCode := "ITEM1", snapshotDate := ⟨2024, 1, 1⟩
     date := ⟨2024, 1, 2⟩, totInventoryDaily := 15, indepReqDaily := 10
     netInventoryVsDemand := 5 }]

/-- A one-row waterfall table whose only row belongs to `ITEM2` at `ORG2`. -/
def cexWaterfall : List WaterfallRow :=
  [{ invOrg := "ORG2", itemCode := "ITEM2", date := ⟨2024, 1, 5⟩
     snapshotDate := ⟨2024, 1, 1⟩, previousSnapshotDate := ⟨2023, 12, 25⟩
     totInventoryDaily := 50, totInventoryPrevious := 60
     deltaInventory := -10 }]

/-- A one-row daily table whose only row belongs to `ITEM2` at `ORG2`. -/
def cexDaily : List DailyRow :=
  [{ invOrg := "ORG2", itemCode := "ITEM2", snapshotDate := ⟨2024, 1, 1⟩
     date := ⟨2024, 1, 2⟩, totInventoryDaily := 1, indepReqDaily := 2
     netInventoryVsDemand := -1 }]

/-- A one-row variance table whose only row belongs to `ITEM2` at `ORG2`. -/
def cexVariance : List VarianceRow :=
  [{ invOrg := "ORG2", itemCode := "ITEM2", date := ⟨2024, 1, 2⟩
     cvDemandForecast := 1, meanDemandForecast := 10 }]

/-!  Helper lemmas shared by the theorems below. -/

/-- Filtering the rows on a negative net position and then projecting the
net column is the same as projecting first and filtering the values. -/
theorem net_filter_map_comm (l : List DailyRow) :
    ((l.filter fun r => decide (r.netInventoryVsDemand < 0)).map
        DailyRow.netInventoryVsDemand) =
      (l.map DailyRow.netInventoryVsDemand).filter fun v => decide (v < 0) := by
  induction l with
  | nil => rfl
  | cons a l ih =>
    by_cases h : a.netInventoryVsDemand < 0 <;>
      simp [List.filter_cons, h, ih]

/-- A list of non-positive integers has non-positive sum. -/
theorem list_sum_nonpos (l : List Int) (h : ∀ x ∈ l, x ≤ 0) : l.sum ≤ 0 := by
  induction l with
  | nil => simp
  | cons a l ih =>
    simp only [List.sum_cons]
    exact add_nonpos (h a (List.mem_cons_self a l))
      (ih fun x hx => h x (List.mem_cons_of_mem a hx))

end Dashboard

namespace Dashboard

/-- Claim C1: for every non-empty sequence of snapshot records sorted
ascending by snapshot date, the reconstruction succeeds with exactly one
step per input record and with the baseline value equal to the first
record's inventory at the previous snapshot. -/
theorem reconstruct_length_baseline (records : List SnapshotRecord)
    (hne : records ≠ []) (hsort : records.Sorted SnapshotRecord.bySnap) :
    ∃ w, reconstruct records = some w ∧
      w.steps.length = records.length ∧
      w.baselineValue = (records.head hne).totInventoryPrevious := by
  cases records with
  | nil => exact absurd rfl hne
  | cons first rest =>
    exact ⟨_, rfl, by simp [reconstruct], rfl⟩

/-- Witness for C1 at the concrete two-record scenario. -/
theorem reconstruct_length_baseline_witness :
    ∃ w, reconstruct twoRecScenario = some w ∧
      w.steps.length = twoRecScenario.length ∧
      w.baselineValue =
        (twoRecScenario.head (by decide)).totInventoryPrevious :=
  reconstruct_length_baseline twoRecScenario (by decide) (by decide)

/-- Claim C2: the empty input yields the distinct empty signal (`none`,
the `No data found.` branch), never a breakdown; and every breakdown the
reconstruction does return has a non-empty steps list, so the empty signal
is not mistakable for a zero-step breakdown. -/
theorem reconstruct_empty_signal :
    reconstruct ([] : List SnapshotRecord) = none ∧
      ∀ (records : List SnapshotRecord) (w : WaterfallBreakdown),
        reconstruct records = some w → w.steps ≠ [] := by
  refine ⟨rfl, ?_⟩
  intro records w h
  cases records with
  | nil => simp [reconstruct] at h
  | cons first rest =>
    obtain rfl : _ = w := Option.some.inj h
    simp [stepOf]

/-- Witness for C2 applied at the concrete two-record scenario. -/
theorem reconstruct_empty_signal_witness :
    ({ baselineLabel := "Base (01-01)", baselineValue := 100,
       steps := [("01-08", -20), ("01-15", 5)], finalMarkerLabel := "Final",
       finalMarkerValue := none } : WaterfallBreakdown).steps ≠ [] :=
  reconstruct_empty_signal.2 twoRecScenario _ (by decide)

/-- Claim C3: on the two-record scenario the reconstruction yields the
baseline label `Base (01-01)`, baseline value 100, the steps
`(01-08, -20)` and `(01-15, 5)` in order, and a terminal `Final` marker
carrying no numeric value. -/
theorem reconstruct_two_record_scenario :
    reconstruct twoRecScenario =
      some { baselineLabel := "Base (01-01)"
             baselineValue := 100
             steps := [("01-08", -20), ("01-15", 5)]
             finalMarkerLabel := "Final"
             finalMarkerValue := none } := by
  decide

/-- Claim C7: the reconstruction is deterministic — structurally equal
inputs give structurally equal breakdowns (as a pure function of its
input list, it also cannot mutate that list). -/
theorem reconstruct_deterministic (records1 records2 : List SnapshotRecord)
    (h : records1 = records2) :
    reconstruct records1 = reconstruct records2 := by
  rw [h]

/-- Witness for C7: two calls on the scenario input agree. -/
theorem reconstruct_deterministic_witness :
    reconstruct twoRecScenario = reconstruct twoRecScenario :=
  reconstruct_deterministic twoRecScenario twoRecScenario rfl

/-- Claim C8: no internal re-sorting — on any permutation of an input
list, the steps are exactly the per-record steps in the permuted order
(hence a permutation of the original steps), and the baseline comes from
whatever record is first after permuting. -/
theorem reconstruct_preserves_order (records records2 : List SnapshotRecord)
    (hperm : records2.Perm records) (w : WaterfallBreakdown)
    (hw : reconstruct records2 = some w) :
    w.steps = records2.map stepOf ∧
      w.steps.Perm (records.map stepOf) ∧
      ∃ hne : records2 ≠ [],
        w.baselineValue = (records2.head hne).totInventoryPrevious := by
  cases records2 with
  | nil => simp [reconstruct] at hw
  | cons first rest =>
    obtain rfl : _ = w := Option.some.inj hw
    exact ⟨rfl, hperm.map stepOf, List.cons_ne_nil first rest, rfl⟩

/-- Witness for C8 at the reversed two-record scenario. -/
theorem reconstruct_preserves_order_witness :
    revBreakdown.steps = twoRecScenarioRev.map stepOf ∧
      revBreakdown.steps.Perm (twoRecScenario.map stepOf) ∧
      ∃ hne : twoRecScenarioRev ≠ [],
        revBreakdown.baselineValue =
          (twoRecScenarioRev.head hne).totInventoryPrevious :=
  reconstruct_preserves_order twoRecScenario twoRecScenarioRev
    (List.reverse_perm twoRecScenario) revBreakdown (by decide)

/-- Claim C4: the cumulative-shortage metric of any non-empty series is
the sum of exactly the strictly negative net-inventory-vs-demand values,
and on the scenario series with nets -10, 5, -3 it equals -13. -/
theorem total_short_sum_of_negatives :
    (∀ series : List DailyRow, series ≠ [] →
        total_short series =
          ((series.map DailyRow.netInventoryVsDemand).filter fun v =>
            decide (v < 0)).sum) ∧
      total_short shortScenario = -13 := by
  constructor
  · intro series _
    unfold total_short
    rw [net_filter_map_comm]
  · decide

/-- Witness for C4 at the scenario series. -/
theorem total_short_sum_of_negatives_witness :
    total_short shortScenario =
      ((shortScenario.map DailyRow.netInventoryVsDemand).filter fun v =>
        decide (v < 0)).sum :=
  total_short_sum_of_negatives.1 shortScenario (by decide)

/-- Claim C10: the cumulative-shortage metric is never positive, it is 0
whenever the series has no strictly negative net value, and it is 0 on
the empty series. -/
theorem total_short_nonpositive (series : List DailyRow) :
    total_short series ≤ 0 ∧
      ((∀ r ∈ series, 0 ≤ r.netInventoryVsDemand) → total_short series = 0) ∧
      total_short ([] : List DailyRow) = 0 := by
  refine ⟨?_, ?_, rfl⟩
  · apply list_sum_nonpos
    intro x hx
    simp only [List.mem_map, List.mem_filter, decide_eq_true_eq] at hx
    obtain ⟨r, ⟨_, hneg⟩, rfl⟩ := hx
    exact le_of_lt hneg
  · intro hpos
    unfold total_short
    have hnil : series.filter (fun r => decide (r.netInventoryVsDemand < 0)) = [] := by
      rw [List.filter_eq_nil_iff]
      intro r hr
      simpa using hpos r hr
    rw [hnil]
    rfl

/-- Witness for C10 at a series with no negative net value. -/
theorem total_short_nonpositive_witness :
    total_short posScenario ≤ 0 ∧ total_short posScenario = 0 ∧
      total_short ([] : List DailyRow) = 0 :=
  ⟨(total_short_nonpositive posScenario).1,
   (total_short_nonpositive posScenario).2.1 (by decide),
   (total_short_nonpositive posScenario).2.2⟩

/-- Claim C9: every selector option list — distinct orgs, distinct items
within the chosen org, distinct forecast target dates, distinct snapshot
dates — is sorted ascending and duplicate free, and offers exactly the
values present in the relevantly filtered data. -/
theorem selector_lists_sorted_distinct (waterfall : List WaterfallRow)
    (daily : List DailyRow) (org item : String) :
    ((all_orgs waterfall).Sorted (· ≤ ·) ∧ (all_orgs waterfall).Nodup ∧
        ∀ x, x ∈ all_orgs waterfall ↔ x ∈ waterfall.map WaterfallRow.invOrg) ∧
      ((avail_items waterfall org).Sorted (· ≤ ·) ∧
        (avail_items waterfall org).Nodup ∧
        ∀ x, x ∈ avail_items waterfall org ↔
          x ∈ (waterfall.filter fun r => r.invOrg == org).map
            WaterfallRow.itemCode) ∧
      ((avail_dates waterfall item org).Sorted Date.le ∧
        (avail_dates waterfall item org).Nodup ∧
        ∀ x, x ∈ avail_dates waterfall item org ↔
          x ∈ (waterfall.filter fun r =>
            r.itemCode == item && r.invOrg == org).map WaterfallRow.date) ∧
      ((all_snaps daily item org).Sorted Date.le ∧
        (all_snaps daily item org).Nodup ∧
        ∀ x, x ∈ all_snaps daily item org ↔
          x ∈ (daily.filter fun r =>
            r.itemCode == item && r.invOrg == org).map DailyRow.snapshotDate) := by
  refine ⟨⟨?_, ?_, ?_⟩, ⟨?_, ?_, ?_⟩, ⟨?_, ?_, ?_⟩, ⟨?_, ?_, ?_⟩⟩ <;>
    first
      | exact List.sorted_insertionSort _ _
      | exact ((List.perm_insertionSort _ _).nodup_iff).mpr (List.nodup_dedup _)
      | intro x
        simp [all_orgs, avail_items, avail_dates, all_snaps]

/-- Counterexample for C5 as stated: a variance table with one row for
`ITEM2` at `ORG2`, filtered for `ITEM1` at `ORG1`, matches zero rows, yet
tab 3 renders an (empty) dataframe with no chart instead of an inline
warning. -/
theorem tab3_empty_selection_no_warning :
    ¬ ∀ (variance : List VarianceRow) (item org : String),
        varQuery variance item org = [] →
          (tab3 true variance item org).isWarning = true := by
  intro h
  exact absurd (h cexVariance "ITEM1" "ORG1" (by decide)) (by decide)

/-- Claim C5 amended: on a filter combination matching zero rows, tab 1
shows its inline warning, tab 2 its inline empty message, and tab 3 (with
variance data registered) an empty table with no chart; each tab function
is total (never throws) and depends only on its own dataset. -/
theorem empty_selection_tab_behavior (waterfall : List WaterfallRow)
    (daily : List DailyRow) (variance : List VarianceRow) (item org : String)
    (h1 : waterfall.filter (fun r => r.itemCode == item && r.invOrg == org) = [])
    (h2 : daily.filter (fun r => r.itemCode == item && r.invOrg == org) = [])
    (h3 : variance.filter (fun r => r.itemCode == item && r.invOrg == org) = []) :
    tab1 waterfall item org = .emptyDates ∧
      tab2 daily item org = .noDaily ∧
      tab3 true variance item org = .table [] := by
  have hd : avail_dates waterfall item org = [] := by
    unfold avail_dates
    rw [h1]
    rfl
  have hs : all_snaps daily item org = [] := by
    unfold all_snaps
    rw [h2]
    rfl
  have hv : varQuery variance item org = [] := by
    unfold varQuery
    rw [h3]
    rfl
  refine ⟨?_, ?_, ?_⟩
  · simp [tab1, hd]
  · simp [tab2, hs]
  · simp [tab3, hv]

/-- Witness for the amended C5 at concrete one-row tables that nowhere
mention `ITEM1` at `ORG1`. -/
theorem empty_selection_tab_behavior_witness :
    tab1 cexWaterfall "ITEM1" "ORG1" = .emptyDates ∧
      tab2 cexDaily "ITEM1" "ORG1" = .noDaily ∧
      tab3 true cexVariance "ITEM1" "ORG1" = .table [] :=
  empty_selection_tab_behavior cexWaterfall cexDaily cexVariance "ITEM1" "ORG1"
    (by decide) (by decide) (by decide)

/-- Claim C6: when either required dataset is available from neither a
local file nor an upload, the script halts with the diagnostic branch and
renders no tab, whereas with both required datasets present the absent
optional variance dataset does not halt anything and merely puts tab 3
into its disabled branch while tabs 1 and 2 render. -/
theorem missing_required_data_halts
    (wfLocal wfUp dailyLocal dailyUp varLocal varUp : Bool)
    (waterfall : List WaterfallRow) (daily : List DailyRow)
    (variance : List VarianceRow) (org item : String) :
    (register_table wfLocal wfUp = false ∨
        register_table dailyLocal dailyUp = false →
      app wfLocal wfUp dailyLocal dailyUp varLocal varUp
        waterfall daily variance org item = .missingData) ∧
      (register_table wfLocal wfUp = true →
        register_table dailyLocal dailyUp = true →
        register_table varLocal varUp = false →
        (avail_items waterfall org).isEmpty = false →
        app wfLocal wfUp dailyLocal dailyUp varLocal varUp
            waterfall daily variance org item =
          .rendered (tab1 waterfall item org) (tab2 daily item org)
            Tab3Output.noVariance) := by
  constructor
  · rintro (h | h) <;> simp [app, h]
  · intro h1 h2 h3 h4
    simp [app, h1, h2, h3, h4, tab3]

/-- Witness for C6: with no waterfall source the app halts; with both
required sources but no variance source it renders tabs 1 and 2 and
disables tab 3. -/
theorem missing_required_data_halts_witness :
    app false false true false false false cexWaterfall cexDaily cexVariance
        "ORG2" "ITEM2" = .missingData ∧
      app true false true false false false cexWaterfall cexDaily cexVariance
          "ORG2" "ITEM2" =
        .rendered (tab1 cexWaterfall "ITEM2" "ORG2")
          (tab2 cexDaily "ITEM2" "ORG2") Tab3Output.noVariance :=
  ⟨(missing_required_data_halts false false true false false false
      cexWaterfall cexDaily cexVariance "ORG2" "ITEM2").1 (Or.inl rfl),
   (missing_required_data_halts true false true false false false
      cexWaterfall cexDaily cexVariance "ORG2" "ITEM2").2 rfl rfl rfl
      (by decide)⟩

end Dashboard
